import Mathlib

/-!
Shallow embedding of the `generate_image` request handlers of the
seedream-v4-replicate-mcp-server repository.

Two handler variants exist in the sources:
* v3 (`src/unnamed/part_000`, the SeedDream 3.0 TypeScript server); and
* v4 (`src/build/index.js`, the SeedDream 4.0 server).

The embedding follows the source line by line.  JavaScript truthiness is
modelled explicitly: a missing field is `none`, a present string field is
`some s` (an empty string is falsy), a present numeric field is `some n`
(zero is falsy).  The `x || d` defaulting idiom of the source is `strOr` /
`intOr` / `qOr` below, and a guard of the form `if (params.f && bad(f))`
tests truthiness first, exactly as the source does.
-/

/-- A JavaScript value supplied for the `prompt` argument: either a string
or some non-string value (the handlers only distinguish these two cases,
via `typeof params.prompt !== 'string'`). -/
inductive PromptVal where
  | str (s : String)
  | nonString
deriving DecidableEq, Repr

/-- The guard `!params.prompt || typeof params.prompt !== 'string'` of both
handlers: the prompt passes exactly when it is a non-empty string, and then
that string is returned. -/
def promptOk : Option PromptVal → Option String
  | some (.str s) => if s.isEmpty then none else some s
  | some .nonString => none
  | none => none

/-- Validation failure kinds, one per `throw new Error(...)` site of the
handlers, named after the spec's taxonomy (§4.1):
`MissingPrompt` = "Prompt is required and must be a string",
`InvalidAspectRatio` = "Invalid aspect ratio. Must be one of: ...",
`InvalidSize` = "Invalid size. Must be one of: ...",
`InvalidSequentialMode` = "Invalid sequential mode. Must be one of: ...",
`InvalidMaxImages` = "max_images must be between 1 and 15",
`TooManyInputImages` = "image_input can contain at most 10 images",
`InvalidDimensions` = "width/height must be between 1024 and 4096 when
using custom size" (v4). -/
inductive VErr where
  | MissingPrompt
  | InvalidAspectRatio
  | InvalidSize
  | InvalidSequentialMode
  | InvalidMaxImages
  | TooManyInputImages
  | InvalidDimensions
deriving DecidableEq, Repr

/-- JavaScript `o || d` for an optional string field (an empty string is
falsy and falls back to the default). -/
def strOr (o : Option String) (d : String) : String :=
  match o with
  | some s => if s.isEmpty then d else s
  | none => d

/-- Truthiness of an optional string field. -/
def strTruthy (o : Option String) : Bool :=
  match o with
  | some s => !s.isEmpty
  | none => false

/-- JavaScript `o || d` for an optional integer field (zero is falsy). -/
def intOr (o : Option Int) (d : Int) : Int :=
  match o with
  | some n => if n = 0 then d else n
  | none => d

/-- Truthiness of an optional integer field. -/
def intTruthy (o : Option Int) : Bool :=
  match o with
  | some n => decide (n ≠ 0)
  | none => false

/-- JavaScript `o || d` for an optional numeric (rational-modelled) field. -/
def qOr (o : Option ℚ) (d : ℚ) : ℚ :=
  match o with
  | some x => if x = 0 then d else x
  | none => d

/-- `VALID_ASPECT_RATIOS` of the v3 server (`src/unnamed/part_000`). -/
def VALID_ASPECT_RATIOS_V3 : List String :=
  ["1:1", "3:4", "4:3", "16:9", "9:16", "2:3", "3:2", "21:9", "custom"]

/-- `VALID_SIZES` of the v3 server. -/
def VALID_SIZES_V3 : List String := ["small", "regular", "big"]

/-- `VALID_SIZES` of the v4 server (`src/build/index.js`). -/
def VALID_SIZES_V4 : List String := ["1K", "2K", "4K", "custom"]

/-- `VALID_ASPECT_RATIOS` of the v4 server. -/
def VALID_ASPECT_RATIOS_V4 : List String :=
  ["1:1", "3:4", "4:3", "16:9", "9:16", "2:3", "3:2", "21:9", "match_input_image"]

/-- `VALID_SEQUENTIAL_MODES` of the v4 server. -/
def VALID_SEQUENTIAL_MODES : List String := ["disabled", "auto"]

/-- The arguments object of a v3 `generate_image` call (interface
`SeedDreamParams` of `src/unnamed/part_000`); every field may be absent. -/
structure V3Params where
  prompt : Option PromptVal
  aspect_ratio : Option String
  size : Option String
  width : Option Int
  height : Option Int
  guidance_scale : Option ℚ
  seed : Option Int
deriving DecidableEq, Repr

/-- The `input` payload the v3 handler builds for `replicate.run`
(`src/unnamed/part_000`, lines 282-301): `size`, `width`, `height` and
`seed` are conditionally present fields of a plain object. -/
structure V3Payload where
  prompt : String
  aspect_ratio : String
  guidance_scale : ℚ
  size : Option String
  width : Option Int
  height : Option Int
  seed : Option Int
deriving DecidableEq, Repr

/-- Validation and payload construction of the v3 handler
(`src/unnamed/part_000`, lines 265-301), in source order: prompt check,
aspect-ratio membership (skipped for a falsy value), size membership
(skipped for a falsy value), then the payload with `||`-defaulting; the
source performs no width/height validation. -/
def normalizeV3 (p : V3Params) : Except VErr V3Payload :=
  match promptOk p.prompt with
  | none => .error .MissingPrompt
  | some s =>
    if strTruthy p.aspect_ratio && !(VALID_ASPECT_RATIOS_V3.contains (p.aspect_ratio.getD "")) then
      .error .InvalidAspectRatio
    else if strTruthy p.size && !(VALID_SIZES_V3.contains (p.size.getD "")) then
      .error .InvalidSize
    else
      .ok { prompt := s
            aspect_ratio := strOr p.aspect_ratio "16:9"
            guidance_scale := qOr p.guidance_scale (2.5 : ℚ)
            size := if p.aspect_ratio ≠ some "custom" then some (strOr p.size "regular") else none
            width := if p.aspect_ratio = some "custom" then some (intOr p.width 2048) else none
            height := if p.aspect_ratio = some "custom" then some (intOr p.height 2048) else none
            seed := p.seed }

/-- The arguments object of a v4 `generate_image` call
(`src/build/index.js`); every field may be absent. -/
structure V4Params where
  prompt : Option PromptVal
  size : Option String
  width : Option Int
  height : Option Int
  max_images : Option Int
  image_input : Option (List String)
  aspect_ratio : Option String
  sequential_image_generation : Option String
deriving DecidableEq, Repr

/-- The `input` payload the v4 handler builds for `replicate.run`
(`src/build/index.js`, lines 258-270): `width` and `height` are added only
when `params.size === "custom"`. -/
structure V4Payload where
  prompt : String
  size : String
  max_images : Int
  image_input : List String
  aspect_ratio : String
  sequential_image_generation : String
  width : Option Int
  height : Option Int
deriving DecidableEq, Repr

/-- Validation and payload construction of the v4 handler
(`src/build/index.js`, lines 225-270), in source order: prompt, size,
aspect ratio, sequential mode, max_images (guarded by truthiness, so a
zero value skips the range check), image_input length, then width/height
range checks only under `params.size === "custom"` and only for truthy
values, then the payload with `||`-defaulting. -/
def normalizeV4 (p : V4Params) : Except VErr V4Payload :=
  match promptOk p.prompt with
  | none => .error .MissingPrompt
  | some s =>
    if strTruthy p.size && !(VALID_SIZES_V4.contains (p.size.getD "")) then
      .error .InvalidSize
    else if strTruthy p.aspect_ratio && !(VALID_ASPECT_RATIOS_V4.contains (p.aspect_ratio.getD "")) then
      .error .InvalidAspectRatio
    else if strTruthy p.sequential_image_generation && !(VALID_SEQUENTIAL_MODES.contains (p.sequential_image_generation.getD "")) then
      .error .InvalidSequentialMode
    else if intTruthy p.max_images && (decide (p.max_images.getD 0 < 1) || decide (15 < p.max_images.getD 0)) then
      .error .InvalidMaxImages
    else if p.image_input.isSome && decide (10 < (p.image_input.getD []).length) then
      .error .TooManyInputImages
    else if decide (p.size = some "custom") && intTruthy p.width && (decide (p.width.getD 0 < 1024) || decide (4096 < p.width.getD 0)) then
      .error .InvalidDimensions
    else if decide (p.size = some "custom") && intTruthy p.height && (decide (p.height.getD 0 < 1024) || decide (4096 < p.height.getD 0)) then
      .error .InvalidDimensions
    else
      .ok { prompt := s
            size := strOr p.size "2K"
            max_images := intOr p.max_images 1
            image_input := p.image_input.getD []
            aspect_ratio := strOr p.aspect_ratio "match_input_image"
            sequential_image_generation := strOr p.sequential_image_generation "disabled"
            width := if p.size = some "custom" then some (intOr p.width 2048) else none
            height := if p.size = some "custom" then some (intOr p.height 2048) else none }

deriving instance DecidableEq for Except

/-- A tool response as returned to the MCP caller: the error flag and the
text of the single content block. -/
structure ToolResponse where
  isError : Bool
  text : String
deriving DecidableEq, Repr

/-- The fixed configuration-error response both handlers return when the
`replicate` client is `null` (identical literal in `src/unnamed/part_000`,
lines 256-262, and `src/build/index.js`, lines 216-222). -/
def tokenMissingResponse : ToolResponse :=
  { isError := true
    text := "Error: REPLICATE_API_TOKEN environment variable is not set. Please configure your Replicate API token." }

/-- How far a `generate_image` call gets before (possibly) contacting the
upstream service: the `!replicate` early return, a validation throw, or
the `replicate.run` invocation with the normalized payload. -/
inductive Phase (P : Type) where
  | configError (resp : ToolResponse)
  | validationError (e : VErr)
  | upstreamCall (input : P)
deriving DecidableEq, Repr

/-- Control flow of the v3 handler up to the `replicate.run` call
(`src/unnamed/part_000`, lines 255-314): the client-null check strictly
precedes reading and validating the arguments. -/
def callV3 (hasClient : Bool) (p : V3Params) : Phase V3Payload :=
  if hasClient then
    match normalizeV3 p with
    | .error e => .validationError e
    | .ok payload => .upstreamCall payload
  else
    .configError tokenMissingResponse

/-- Whether the v3 handler reaches `replicate.run`. -/
def upstreamCalledV3 (hasClient : Bool) (p : V3Params) : Bool :=
  match callV3 hasClient p with
  | .upstreamCall _ => true
  | _ => false

/-- Control flow of the v4 handler up to the `replicate.run` call
(`src/build/index.js`, lines 215-280). -/
def callV4 (hasClient : Bool) (p : V4Params) : Phase V4Payload :=
  if hasClient then
    match normalizeV4 p with
    | .error e => .validationError e
    | .ok payload => .upstreamCall payload
  else
    .configError tokenMissingResponse

/-- Whether the v4 handler reaches `replicate.run`. -/
def upstreamCalledV4 (hasClient : Bool) (p : V4Params) : Bool :=
  match callV4 hasClient p with
  | .upstreamCall _ => true
  | _ => false

/-- JavaScript `s.startsWith(pre)`, written over character lists so that it
evaluates inside the kernel. -/
def jsStartsWith (s pre : String) : Bool :=
  s.data.take pre.data.length == pre.data

/-- Outcome of one `downloadImage(url, filename)` invocation: the resolved
local path, or a rejection. -/
inductive DlResult where
  | ok (path : String)
  | err
deriving DecidableEq, Repr

/-- The `localPath` the v4 download loop records for one outcome: the path
on success, the empty string on a caught download error
(`src/build/index.js`, lines 298-305). -/
def dlPath : DlResult → String
  | .ok p => p
  | .err => ""

/-- One entry of `downloadedImages` in the v4 handler. -/
structure DlRecord where
  url : String
  localPath : String
  index : Nat
deriving DecidableEq, Repr

/-- The URL-validity guard of the v4 download loop
(`src/build/index.js`, line 292): `.url()` must yield a string starting
with "http" (a falsy string never starts with "http", so the truthiness
test is subsumed); `none` models a missing or non-string `.url()` result.
Returns the URL when valid. -/
def validUrl : Option String → Option String
  | some u => if jsStartsWith u "http" then some u else none
  | none => none

/-- The sequential download loop of the v4 handler
(`src/build/index.js`, lines 290-306), with the environment's download
outcomes supplied as an oracle `dl` indexed by position and URL: an
invalid URL is skipped (`continue`, no record, no download attempt); a
valid URL is downloaded once and always produces a record, with
`localPath = ""` on a caught failure. `i` is the current loop index. -/
def downloadLoop (dl : Nat → String → DlResult) : List (Option String) → Nat → List DlRecord
  | [], _ => []
  | r :: rest, i =>
    match validUrl r with
    | none => downloadLoop dl rest (i + 1)
    | some u => { url := u, localPath := dlPath (dl i u), index := i } :: downloadLoop dl rest (i + 1)

/-- The raw result of `replicate.run` in the v4 handler: either not an
array at all (including null/undefined), or an array whose elements give
the `.url()` values of the returned image objects. -/
inductive UpstreamOut where
  | nonArray
  | arr (refs : List (Option String))
deriving DecidableEq, Repr

/-- Overall outcome of the v4 handler's post-upstream phase:
`emptyOutput` is the thrown "No images were generated - empty response
from Replicate" (fatal, surfaced as an error response); `success` carries
the `downloadedImages` records and `output.length`. -/
inductive V4Outcome where
  | emptyOutput
  | success (records : List DlRecord) (total : Nat)
deriving DecidableEq, Repr

/-- The v4 handler from the settled upstream result onward
(`src/build/index.js`, lines 283-338): the empty/non-array check precedes
the download loop, and the success response is assembled from the records
unconditionally (download failures never rethrow).  The second component
counts `downloadImage` invocations (one per valid URL, so exactly the
number of records). -/
def handleV4Output (dl : Nat → String → DlResult) (out : UpstreamOut) : V4Outcome × Nat :=
  match out with
  | .nonArray => (.emptyOutput, 0)
  | .arr refs =>
    if refs.isEmpty then
      (.emptyOutput, 0)
    else
      ((.success (downloadLoop dl refs 0) refs.length), (downloadLoop dl refs 0).length)

/-- The records the download loop produces on a list of valid URLs
starting at index `i`: one per URL, in order, each determined by the URL
and the oracle's outcome at its index. -/
def seqRecs (dl : Nat → String → DlResult) : Nat → List String → List DlRecord
  | _, [] => []
  | i, u :: rest => { url := u, localPath := dlPath (dl i u), index := i } :: seqRecs dl (i + 1) rest

/-- A concrete download oracle for witnesses: the download at index 1
fails, the others succeed. -/
def dlDemo : Nat → String → DlResult :=
  fun i u => if i = 1 then .err else .ok ("images/" ++ u ++ ".jpg")

/-- Three concrete valid image URLs for witnesses. -/
def demoUrls : List String := ["http-a", "http-b", "http-c"]

/-- On a list of valid URLs the v4 download loop neither skips nor aborts:
it produces exactly the `seqRecs` records, one per URL in order. -/
theorem downloadLoop_eq_seqRecs (dl : Nat → String → DlResult) :
    ∀ (urls : List String) (i : Nat),
      (∀ u ∈ urls, jsStartsWith u "http" = true) →
      downloadLoop dl (urls.map some) i = seqRecs dl i urls := by
  intro urls
  induction urls with
  | nil => intro i _; rfl
  | cons u rest ih =>
    intro i hv
    have hu : jsStartsWith u "http" = true := hv u (by simp)
    have hrest : ∀ x ∈ rest, jsStartsWith x "http" = true :=
      fun x hx => hv x (by simp [hx])
    simp only [List.map, downloadLoop, validUrl, hu, if_true, seqRecs, ih i.succ hrest]

/-- Every URL gets exactly one record, whatever the download outcomes. -/
theorem seqRecs_length (dl : Nat → String → DlResult) :
    ∀ (i : Nat) (urls : List String), (seqRecs dl i urls).length = urls.length := by
  intro i urls
  induction urls generalizing i with
  | nil => rfl
  | cons u rest ih => simp [seqRecs, ih]

/-- The records list the source URLs in upstream order. -/
theorem seqRecs_map_url (dl : Nat → String → DlResult) :
    ∀ (i : Nat) (urls : List String), (seqRecs dl i urls).map DlRecord.url = urls := by
  intro i urls
  induction urls generalizing i with
  | nil => rfl
  | cons u rest ih => simp [seqRecs, ih]

/-- The records carry consecutive indices starting at `i`. -/
theorem seqRecs_map_index (dl : Nat → String → DlResult) :
    ∀ (i : Nat) (urls : List String),
      (seqRecs dl i urls).map DlRecord.index = List.range' i urls.length := by
  intro i urls
  induction urls generalizing i with
  | nil => rfl
  | cons u rest ih => simp [seqRecs, ih, List.range']

/-- C1: the claim says a v3 request with `aspect_ratio == "custom"` and a
width outside 512-2048 fails with `InvalidDimensions` before any remote
call; the v3 source performs no dimension validation at all, so the input
`{prompt: "x", aspect_ratio: "custom", width: 100}` normalizes
successfully and `width = 100` is placed in the upstream payload. -/
theorem C1_v3_custom_width_unvalidated :
    normalizeV3 ⟨some (.str "x"), some "custom", none, some 100, none, none, none⟩ =
      .ok ⟨"x", "custom", (2.5 : ℚ), none, some 100, some 2048, none⟩ := rfl

/-- C2: the claim says v4 `max_images` is accepted iff `1 <= max_images <=
15`, with 0 and 16 rejected; in the source the guard
`params.max_images && (...)` skips validation for the falsy value 0, which
is then defaulted to 1, so 0 is accepted (1, 15 accepted and 16 rejected
as claimed). -/
theorem C2_max_images_zero_accepted :
    normalizeV4 ⟨some (.str "x"), none, none, none, some 0, none, none, none⟩ =
      .ok ⟨"x", "2K", 1, [], "match_input_image", "disabled", none, none⟩ ∧
    (normalizeV4 ⟨some (.str "x"), none, none, none, some 1, none, none, none⟩).isOk = true ∧
    (normalizeV4 ⟨some (.str "x"), none, none, none, some 15, none, none, none⟩).isOk = true ∧
    normalizeV4 ⟨some (.str "x"), none, none, none, some 16, none, none, none⟩ =
      .error .InvalidMaxImages := ⟨rfl, rfl, rfl, rfl⟩

/-- C3 counterexample: the claim says any input (on either version) whose
aspect_ratio and size are both invalid fails with `InvalidAspectRatio`;
the v4 handler validates size first, so this v4 input fails with
`InvalidSize` instead. -/
theorem C3_counterexample_v4_order :
    normalizeV4 ⟨some (.str "x"), some "zz", none, none, none, none, some "zz", none⟩ =
      .error .InvalidSize ∧ VErr.InvalidSize ≠ VErr.InvalidAspectRatio :=
  ⟨rfl, by decide⟩

/-- C3 amended: validation short-circuits with the first failure winning,
but the two versions order the sizing checks differently: v3 checks
aspect_ratio before size, so a v3 input with a valid prompt and truthy
invalid aspect_ratio and size fails with `InvalidAspectRatio`; v4 checks
size before aspect_ratio, so such a v4 input fails with `InvalidSize`. -/
theorem C3_amended_validation_order (p : V3Params) (q : V4Params)
    (h3p : (promptOk p.prompt).isSome = true)
    (h3a : strTruthy p.aspect_ratio = true)
    (h3am : p.aspect_ratio.getD "" ∉ VALID_ASPECT_RATIOS_V3)
    (h3s : strTruthy p.size = true)
    (h3sm : p.size.getD "" ∉ VALID_SIZES_V3)
    (h4p : (promptOk q.prompt).isSome = true)
    (h4a : strTruthy q.aspect_ratio = true)
    (h4am : q.aspect_ratio.getD "" ∉ VALID_ASPECT_RATIOS_V4)
    (h4s : strTruthy q.size = true)
    (h4sm : q.size.getD "" ∉ VALID_SIZES_V4) :
    normalizeV3 p = .error .InvalidAspectRatio ∧ normalizeV4 q = .error .InvalidSize := by
  obtain ⟨s3, hs3⟩ := Option.isSome_iff_exists.mp h3p
  obtain ⟨s4, hs4⟩ := Option.isSome_iff_exists.mp h4p
  constructor
  · unfold normalizeV3; rw [hs3]; simp [h3a, h3am]
  · unfold normalizeV4; rw [hs4]; simp [h4s, h4sm]

/-- Witness for C3 amended: concrete inputs with both sizing fields
invalid on each version. -/
theorem C3_amended_validation_order_witness :
    normalizeV3 ⟨some (.str "x"), some "zz", some "zz", none, none, none, none⟩ =
      .error .InvalidAspectRatio ∧
    normalizeV4 ⟨some (.str "x"), some "zz", none, none, none, none, some "zz", none⟩ =
      .error .InvalidSize :=
  C3_amended_validation_order
    ⟨some (.str "x"), some "zz", some "zz", none, none, none, none⟩
    ⟨some (.str "x"), some "zz", none, none, none, none, some "zz", none⟩
    (by decide) (by decide) (by decide) (by decide) (by decide)
    (by decide) (by decide) (by decide) (by decide) (by decide)

/-- C4: for every valid input the normalized payload includes only the
fields of the selected mode: the v3 payload contains size iff aspect_ratio
is not "custom" and width/height iff aspect_ratio is "custom"; the v4
payload contains width/height iff size is "custom". -/
theorem C4_payload_mode_exclusivity (p : V3Params) (q : V4Params) :
    (∀ out, normalizeV3 p = .ok out →
      ((out.size.isSome = true ↔ p.aspect_ratio ≠ some "custom") ∧
       (out.width.isSome = true ↔ p.aspect_ratio = some "custom") ∧
       (out.height.isSome = true ↔ p.aspect_ratio = some "custom"))) ∧
    (∀ out, normalizeV4 q = .ok out →
      ((out.width.isSome = true ↔ q.size = some "custom") ∧
       (out.height.isSome = true ↔ q.size = some "custom"))) := by
  constructor
  · intro out h
    unfold normalizeV3 at h
    split at h
    · simp at h
    · split_ifs at h <;>
        first
          | (simp at h; done)
          | (injection h with h; subst h; simp_all)
  · intro out h
    unfold normalizeV4 at h
    split at h
    · simp at h
    · split_ifs at h <;>
        first
          | (simp at h; done)
          | (injection h with h; subst h; simp_all)

/-- Witness for C4: concrete custom-mode inputs on both versions, with the
normalization hypotheses discharged by `rfl`. -/
theorem C4_payload_mode_exclusivity_witness :
    (((none : Option String).isSome = true ↔
        (some "custom" : Option String) ≠ some "custom") ∧
     ((some (2048 : Int) : Option Int).isSome = true ↔
        (some "custom" : Option String) = some "custom") ∧
     ((some (2048 : Int) : Option Int).isSome = true ↔
        (some "custom" : Option String) = some "custom")) ∧
    (((some (1024 : Int) : Option Int).isSome = true ↔
        (some "custom" : Option String) = some "custom") ∧
     ((some (2048 : Int) : Option Int).isSome = true ↔
        (some "custom" : Option String) = some "custom")) :=
  ⟨(C4_payload_mode_exclusivity
      ⟨some (.str "x"), some "custom", none, none, none, none, some 7⟩
      ⟨some (.str "x"), some "custom", some 1024, none, none, none, none, none⟩).1
      ⟨"x", "custom", (2.5 : ℚ), none, some 2048, some 2048, some 7⟩ rfl,
   (C4_payload_mode_exclusivity
      ⟨some (.str "x"), some "custom", none, none, none, none, some 7⟩
      ⟨some (.str "x"), some "custom", some 1024, none, none, none, none, none⟩).2
      ⟨"x", "custom", 1, [], "match_input_image", "disabled", some 1024, some 2048⟩ rfl⟩

/-- C5: for every input whose prompt is absent, not a string, or the empty
string, normalization fails with `MissingPrompt` on both versions and the
handler never reaches `replicate.run` even when the client is present. -/
theorem C5_missing_prompt_no_upstream (p : V3Params) (q : V4Params)
    (h3 : p.prompt = none ∨ p.prompt = some .nonString ∨ p.prompt = some (.str ""))
    (h4 : q.prompt = none ∨ q.prompt = some .nonString ∨ q.prompt = some (.str "")) :
    normalizeV3 p = .error .MissingPrompt ∧ upstreamCalledV3 true p = false ∧
    normalizeV4 q = .error .MissingPrompt ∧ upstreamCalledV4 true q = false := by
  have e3 : promptOk p.prompt = none := by
    rcases h3 with h | h | h <;> rw [h] <;> rfl
  have e4 : promptOk q.prompt = none := by
    rcases h4 with h | h | h <;> rw [h] <;> rfl
  have n3 : normalizeV3 p = .error .MissingPrompt := by
    unfold normalizeV3; rw [e3]
  have n4 : normalizeV4 q = .error .MissingPrompt := by
    unfold normalizeV4; rw [e4]
  exact ⟨n3, by simp [upstreamCalledV3, callV3, n3], n4, by simp [upstreamCalledV4, callV4, n4]⟩

/-- Witness for C5: an absent prompt on v3 and a non-string prompt on v4. -/
theorem C5_missing_prompt_no_upstream_witness :
    normalizeV3 ⟨none, none, none, none, none, none, none⟩ = .error .MissingPrompt ∧
    upstreamCalledV3 true ⟨none, none, none, none, none, none, none⟩ = false ∧
    normalizeV4 ⟨some .nonString, none, none, none, none, none, none, none⟩ =
      .error .MissingPrompt ∧
    upstreamCalledV4 true ⟨some .nonString, none, none, none, none, none, none, none⟩ = false :=
  C5_missing_prompt_no_upstream
    ⟨none, none, none, none, none, none, none⟩
    ⟨some .nonString, none, none, none, none, none, none, none⟩
    (Or.inl rfl) (Or.inr (Or.inl rfl))

/-- C6: the v3 input `{prompt: "a red fox"}` normalizes to exactly
`{prompt: "a red fox", aspect_ratio: "16:9", size: "regular",
guidance_scale: 2.5}` with no seed, width or height. -/
theorem C6_v3_default_payload :
    normalizeV3 ⟨some (.str "a red fox"), none, none, none, none, none, none⟩ =
      .ok ⟨"a red fox", "16:9", (2.5 : ℚ), some "regular", none, none, none⟩ := rfl

/-- C7: when the v4 upstream result is an empty sequence or not a sequence
at all, the post-upstream phase fails with `EmptyOutput` and zero
`downloadImage` invocations are made, whatever the download environment. -/
theorem C7_empty_output_no_download (dl : Nat → String → DlResult) (out : UpstreamOut)
    (h : out = .nonArray ∨ out = .arr []) :
    handleV4Output dl out = (.emptyOutput, 0) := by
  rcases h with h | h <;> subst h <;> rfl

/-- Witness for C7: the empty array, under an environment where every
download would fail. -/
theorem C7_empty_output_no_download_witness :
    handleV4Output (fun _ _ => DlResult.err) (.arr []) = (.emptyOutput, 0) :=
  C7_empty_output_no_download (fun _ _ => DlResult.err) (.arr []) (Or.inr rfl)

/-- C8: on a non-empty list of well-formed URLs the v4 call always
assembles a success result, one download record per URL in upstream order,
regardless of which individual downloads fail: a failed download aborts
neither the later downloads nor the call. -/
theorem C8_downloads_sequential_nonfatal (dl : Nat → String → DlResult)
    (urls : List String) (hne : urls ≠ [])
    (hv : ∀ u ∈ urls, jsStartsWith u "http" = true) :
    handleV4Output dl (.arr (urls.map some)) =
      (.success (seqRecs dl 0 urls) urls.length, urls.length) ∧
    (seqRecs dl 0 urls).length = urls.length ∧
    (seqRecs dl 0 urls).map DlRecord.url = urls ∧
    (seqRecs dl 0 urls).map DlRecord.index = List.range urls.length := by
  have hloop := downloadLoop_eq_seqRecs dl urls 0 hv
  have hlen := seqRecs_length dl 0 urls
  refine ⟨?_, hlen, seqRecs_map_url dl 0 urls, ?_⟩
  · have hemp : (urls.map some).isEmpty = false := by
      cases urls with
      | nil => exact absurd rfl hne
      | cons a l => rfl
    simp [handleV4Output, hemp, hloop, hlen]
  · rw [seqRecs_map_index dl 0 urls, List.range_eq_range']

/-- Witness for C8: three valid URLs of which the second fails to
download; the call succeeds with 2 downloaded records and 1 failure
record. -/
theorem C8_downloads_sequential_nonfatal_witness :
    (handleV4Output dlDemo (.arr (demoUrls.map some)) =
      (.success (seqRecs dlDemo 0 demoUrls) demoUrls.length, demoUrls.length) ∧
     (seqRecs dlDemo 0 demoUrls).length = demoUrls.length ∧
     (seqRecs dlDemo 0 demoUrls).map DlRecord.url = demoUrls ∧
     (seqRecs dlDemo 0 demoUrls).map DlRecord.index = List.range demoUrls.length) ∧
    (seqRecs dlDemo 0 demoUrls).countP (fun r => !r.localPath.isEmpty) = 2 ∧
    (seqRecs dlDemo 0 demoUrls).countP (fun r => r.localPath.isEmpty) = 1 :=
  ⟨C8_downloads_sequential_nonfatal dlDemo demoUrls (by decide) (by decide),
   by decide, by decide⟩

/-- C9: the normalizers are pure functions of the input, so normalizing
the same input twice yields identical payloads, and the v3 payload's seed
is exactly the input's seed: an unset seed is omitted (`none`), never
randomized (the only RNG use in the source affects a download filename,
not the payload; v4 has no seed field at all). -/
theorem C9_normalizer_deterministic (p : V3Params) (q : V4Params) :
    normalizeV3 p = normalizeV3 p ∧ normalizeV4 q = normalizeV4 q ∧
    (∀ out, normalizeV3 p = .ok out → out.seed = p.seed) := by
  refine ⟨rfl, rfl, ?_⟩
  intro out h
  unfold normalizeV3 at h
  split at h
  · simp at h
  · split_ifs at h <;>
      first
        | (simp at h; done)
        | (injection h with h; subst h; rfl)

/-- Witness for C9: a v3 input with and a v4 input without a seed. -/
theorem C9_normalizer_deterministic_witness :
    (some (5 : Int) : Option Int) = some (5 : Int) :=
  (C9_normalizer_deterministic
    ⟨some (.str "x"), none, none, none, none, none, some 5⟩
    ⟨some (.str "x"), none, none, none, none, none, none, none⟩).2.2
    ⟨"x", "16:9", (2.5 : ℚ), some "regular", none, none, some 5⟩ rfl

/-- C10: when the upstream client is absent, every `generate_image` call
on either version returns the one fixed configuration-error response
flagged as an error — before any argument validation, so never a
validation error — and never contacts upstream. -/
theorem C10_credential_check_first (p : V3Params) (q : V4Params) :
    callV3 false p = .configError tokenMissingResponse ∧
    callV4 false q = .configError tokenMissingResponse ∧
    tokenMissingResponse.isError = true ∧
    upstreamCalledV3 false p = false ∧
    upstreamCalledV4 false q = false :=
  ⟨rfl, rfl, rfl, rfl, rfl⟩
